/-
Verification of the client-side authentication layer of the Divine Darshan
temple-booking application.

The development shallowly embeds the relevant TypeScript sources:
  - src/services/api.ts            (error normalisation, request interceptor)
  - src/frontent/services/api.ts   (second client wrapper, debug interceptor)
  - src/contexts/AuthContext.tsx   (session store: loadUser, login, signup, logout)
  - src/frontent/components/LoginModal.tsx (auth modal: validate, handlers, view switching)

JavaScript dynamic values are modelled by an inductive `JsValue` with explicit
truthiness and property access (property access on null/undefined is an
exception, as in JS).  The two anchored regular expressions used by the
login-modal validation are modelled by a Brzozowski-derivative matcher, which
decides whole-string membership exactly as `RegExp.test` does for a `^...$`
pattern.
-/
import Mathlib

namespace Divine

/-! ## JavaScript value model -/

/-- Dynamic JavaScript values, as far as the embedded code inspects them. -/
inductive JsValue where
  | null
  | undefined
  | str (s : String)
  | num (n : Int)
  | boolean (b : Bool)
  | obj (fields : List (String × JsValue))

/-- Field lookup in an object literal (first binding wins, missing fields are
`undefined`). -/
def lookupField : List (String × JsValue) → String → JsValue
  | [], _ => .undefined
  | (k, v) :: rest, f => if k = f then v else lookupField rest f

/-- JavaScript property access `v.f`.  Throws a `TypeError` on `null` and
`undefined`; yields `undefined` on primitives and missing fields. -/
def getProp : JsValue → String → Except String JsValue
  | .null, f => .error ("TypeError: Cannot read properties of null (reading " ++ f ++ ")")
  | .undefined, f => .error ("TypeError: Cannot read properties of undefined (reading " ++ f ++ ")")
  | .obj fields, f => .ok (lookupField fields f)
  | _, _ => .ok .undefined

/-- Optional chaining `v?.f`: `undefined` when `v` is nullish, otherwise plain
property access (never throws on primitives). -/
def optChainProp (v : JsValue) (f : String) : JsValue :=
  match v with
  | .null => .undefined
  | .undefined => .undefined
  | .obj fields => lookupField fields f
  | _ => .undefined

/-- JavaScript truthiness. -/
def toBool : JsValue → Bool
  | .null => false
  | .undefined => false
  | .str s => s != ""
  | .num n => n != 0
  | .boolean b => b
  | .obj _ => true

/-- String coercion as performed by a template literal. -/
def jsToString : JsValue → String
  | .null => "null"
  | .undefined => "undefined"
  | .str s => s
  | .num n => toString n
  | .boolean b => if b then "true" else "false"
  | .obj _ => "[object Object]"

/-- `axios.isAxiosError(payload)`: `isObject(payload) && payload.isAxiosError === true`.
Never throws. -/
def isAxiosError : JsValue → Bool
  | .obj fields =>
    match lookupField fields "isAxiosError" with
    | .boolean true => true
    | _ => false
  | _ => false

/-! ## `getApiErrorMessage` (src/services/api.ts lines 9-23; the copy in
src/frontent/services/api.ts lines 17-34 is textually identical code) -/

/-- The final `return error.message || 'An unexpected error occurred.';` of
`getApiErrorMessage`, reached both when the error is not an axios error and
when it is an axios error with neither response nor request. -/
def lastReturn (error : JsValue) : Except String JsValue := do
  let msg ← getProp error "message"
  if toBool msg then
    return msg
  else
    return JsValue.str "An unexpected error occurred."

/-- Embedding of `getApiErrorMessage` from src/services/api.ts.  The result is
`Except.error e` when the JS code would throw exception `e`. -/
def getApiErrorMessage (error : JsValue) : Except String JsValue := do
  if isAxiosError error then
    let response ← getProp error "response"
    if toBool response then
      let data ← getProp response "data"
      let msg := optChainProp data "message"
      if toBool msg then
        return msg
      else
        let status ← getProp response "status"
        let statusText ← getProp response "statusText"
        return JsValue.str ("Error: " ++ jsToString status ++ " - " ++ jsToString statusText)
    else
      let request ← getProp error "request"
      if toBool request then
        return JsValue.str "No response from server. Please check your network connection."
      else
        lastReturn error
  else
    lastReturn error

/-! ## Regular expressions of the login modal

The source uses two anchored patterns:
  email : `/^\w+([\.-]?\w+)*@\w+([\.-]?\w+)*(\.\w{2,3})+$/`
  phone : `/^[6-9]\d{9}$/`
`re.test s` for an anchored pattern holds iff the whole string is in the
pattern's language, decided here by Brzozowski derivatives. -/

inductive Reg where
  | fail
  | eps
  | chr (p : Char → Bool)
  | seq (a b : Reg)
  | alt (a b : Reg)
  | star (r : Reg)

def nullable : Reg → Bool
  | .fail => false
  | .eps => true
  | .chr _ => false
  | .seq a b => nullable a && nullable b
  | .alt a b => nullable a || nullable b
  | .star _ => true

/-- Smart sequencing (language-preserving simplification). -/
def mkSeq : Reg → Reg → Reg
  | .fail, _ => .fail
  | .eps, b => b
  | _, .fail => .fail
  | a, .eps => a
  | a, b => .seq a b

/-- Smart alternation (language-preserving simplification). -/
def mkAlt : Reg → Reg → Reg
  | .fail, b => b
  | a, .fail => a
  | a, b => .alt a b

/-- Brzozowski derivative. -/
def deriv (r : Reg) (c : Char) : Reg :=
  match r with
  | .fail => .fail
  | .eps => .fail
  | .chr p => if p c then .eps else .fail
  | .seq a b => mkAlt (mkSeq (deriv a c) b) (if nullable a then deriv b c else .fail)
  | .alt a b => mkAlt (deriv a c) (deriv b c)
  | .star r => mkSeq (deriv r c) (.star r)

/-- `re.test s` for an anchored pattern: whole-string membership. -/
def regexTest (r : Reg) (s : String) : Bool :=
  nullable (s.data.foldl deriv r)

/-- `\w` = `[A-Za-z0-9_]`. -/
def wordChar : Reg := .chr (fun c => c.isAlphanum || c = '_')

/-- `[\.-]` -/
def dotOrDash : Reg := .chr (fun c => c = '.' || c = '-')

def rplus (r : Reg) : Reg := .seq r (.star r)

def ropt (r : Reg) : Reg := .alt r .eps

/-- `([\.-]?\w+)` -/
def wordRun : Reg := .seq (ropt dotOrDash) (rplus wordChar)

/-- `(\.\w{2,3})` -/
def tld : Reg := .seq (.chr (fun c => c = '.')) (.seq wordChar (.seq wordChar (ropt wordChar)))

/-- `/^\w+([\.-]?\w+)*@\w+([\.-]?\w+)*(\.\w{2,3})+$/` -/
def emailReg : Reg :=
  .seq (rplus wordChar) (.seq (.star wordRun)
    (.seq (.chr (fun c => c = '@')) (.seq (rplus wordChar)
      (.seq (.star wordRun) (rplus tld)))))

/-- `\d` -/
def digitChar : Reg := .chr Char.isDigit

def repN (r : Reg) : Nat → Reg
  | 0 => .eps
  | n + 1 => .seq r (repN r n)

/-- `/^[6-9]\d{9}$/` -/
def phoneReg : Reg :=
  .seq (.chr (fun c => '6' ≤ c && c ≤ '9')) (repN digitChar 9)

/-! ## Session store (src/contexts/AuthContext.tsx)

The store's state is the current user, the loading flag, and the content of
`localStorage` under the key `divine_token`.  Network outcomes (of `getMe`,
`loginUser`, `registerUser`) are passed in explicitly: `Except.ok` carries a
successful response body, `Except.error` the rejection value handed to the
`catch` block. -/

structure User where
  id : String
  name : String
  email : String
  mobile : String
  role : String
  deriving DecidableEq, Repr

structure AuthState where
  storedToken : Option String
  user : Option User
  isLoading : Bool
  deriving DecidableEq, Repr

/-- `isAuthenticated: !!user` (src/contexts/AuthContext.tsx line 79). -/
def isAuthenticated (st : AuthState) : Bool := st.user.isSome

/-- Primitive effects performed by the session store, in program order. -/
inductive Effect where
  | getItem (key : String)
  | setItem (key : String) (value : String)
  | removeItem (key : String)
  | setUser (u : Option User)
  | setIsLoading (b : Bool)
  | networkCall (endpoint : String)
  | consoleError (msg : String)
  deriving DecidableEq, Repr

def applyEffect (st : AuthState) : Effect → AuthState
  | .setItem k v => if k = "divine_token" then { st with storedToken := some v } else st
  | .removeItem k => if k = "divine_token" then { st with storedToken := none } else st
  | .setUser u => { st with user := u }
  | .setIsLoading b => { st with isLoading := b }
  | _ => st

def applyEffects (st : AuthState) (es : List Effect) : AuthState := es.foldl applyEffect st

/-- The effect trace of one run of `loadUser` (src/contexts/AuthContext.tsx
lines 27-41), given the token read from storage and the outcome of `getMe`.
When no token is present `getMe` is never called and its outcome is ignored. -/
def loadUserTrace (token : Option String) (getMeOutcome : Except JsValue User) : List Effect :=
  Effect.getItem "divine_token" ::
    (match token with
     | some _ =>
       Effect.networkCall "GET /auth/me" ::
         (match getMeOutcome with
          | .ok u => [Effect.setUser (some u)]
          | .error _ =>
            [Effect.consoleError "Failed to load user session",
             Effect.removeItem "divine_token",
             Effect.setUser none])
     | none => []) ++ [Effect.setIsLoading false]

/-- State of the provider right after mount: `useState(null)` for the user,
`useState(true)` for the loading flag, with `persistedToken` in storage. -/
def initialAuthState (persistedToken : Option String) : AuthState :=
  { storedToken := persistedToken, user := none, isLoading := true }

/-- A whole startup sequence: mount, then the `useEffect` runs `loadUser`. -/
def startup (persistedToken : Option String) (getMeOutcome : Except JsValue User) : AuthState :=
  applyEffects (initialAuthState persistedToken) (loadUserTrace persistedToken getMeOutcome)

/-- Recognizes `setIsLoading` effects. -/
def isSetIsLoadingEffect : Effect → Bool
  | .setIsLoading _ => true
  | _ => false

/-- Recognizes network-call effects. -/
def isNetworkCallEffect : Effect → Bool
  | .networkCall _ => true
  | _ => false

/-- Number of `setIsLoading` effects in a trace. -/
def countSetIsLoading (es : List Effect) : Nat :=
  (es.filter isSetIsLoadingEffect).length

/-- Number of network calls in a trace. -/
def countNetworkCalls (es : List Effect) : Nat :=
  (es.filter isNetworkCallEffect).length

/-- Result value of the `login`/`signup` transitions:
`{ success: boolean, error?: string }` (at runtime the `error` field holds
whatever `getApiErrorMessage` produced). -/
structure ApiResult where
  success : Bool
  error : Option JsValue

/-- Embedding of `login` (src/contexts/AuthContext.tsx lines 47-58).
`endpoint` is the outcome of `loginUser`: on fulfilment the `{token, user}` of
the response body, on rejection the error value.  The result is `Except.error`
if the code itself would throw (only possible inside `getApiErrorMessage`). -/
def login (st : AuthState) (endpoint : Except JsValue (String × User)) :
    Except String (AuthState × ApiResult) :=
  match endpoint with
  | .ok (token, loggedInUser) =>
    .ok ({ st with storedToken := some token, user := some loggedInUser },
         { success := true, error := none })
  | .error err =>
    match getApiErrorMessage err with
    | .ok m => .ok (st, { success := false, error := some m })
    | .error ex => .error ex

/-- Embedding of `signup` (src/contexts/AuthContext.tsx lines 60-70); same
shape as `login` over the `registerUser` endpoint. -/
def signup (st : AuthState) (endpoint : Except JsValue (String × User)) :
    Except String (AuthState × ApiResult) :=
  match endpoint with
  | .ok (token, newUser) =>
    .ok ({ st with storedToken := some token, user := some newUser },
         { success := true, error := none })
  | .error err =>
    match getApiErrorMessage err with
    | .ok m => .ok (st, { success := false, error := some m })
    | .error ex => .error ex

/-- Effect trace of `logout` (src/contexts/AuthContext.tsx lines 72-75). -/
def logoutTrace : List Effect :=
  [Effect.removeItem "divine_token", Effect.setUser none]

/-- Embedding of `logout`: a total, synchronous state transformation. -/
def logout (st : AuthState) : AuthState := applyEffects st logoutTrace

/-! ## Request interceptors

src/services/api.ts lines 45-52 registers an interceptor that reads
`divine_token` from storage and, when present, sets the `Authorization`
header.  src/frontent/services/api.ts lines 51-67 registers a debug
interceptor that only logs and returns the config unchanged; no other request
interceptor is registered in that file (a comment claims the auth token is
handled there, but no header is set). -/

structure RequestConfig where
  headers : List (String × String)
  deriving DecidableEq, Repr

/-- JS property assignment `headers[k] = v`: overwrite if present, else add. -/
def setHeaderField (hs : List (String × String)) (k v : String) : List (String × String) :=
  match hs with
  | [] => [(k, v)]
  | (k', v') :: rest => if k' = k then (k, v) :: rest else (k', v') :: setHeaderField rest k v

/-- Header lookup. -/
def getHeaderField (hs : List (String × String)) (k : String) : Option String :=
  match hs with
  | [] => none
  | (k', v') :: rest => if k' = k then some v' else getHeaderField rest k

/-- The request interceptor of src/services/api.ts (lines 45-52). -/
def requestInterceptor (storedToken : Option String) (config : RequestConfig) : RequestConfig :=
  match storedToken with
  | some token => { config with headers := setHeaderField config.headers "Authorization" ("Bearer " ++ token) }
  | none => config

/-- The request interceptor of src/frontent/services/api.ts (lines 51-67):
logs and returns the config unchanged; it never reads the stored token. -/
def frontentRequestInterceptor (_storedToken : Option String) (config : RequestConfig) :
    RequestConfig :=
  config

/-! ## Auth modal (src/frontent/components/LoginModal.tsx) -/

inductive View where
  | login
  | signup
  | forgotPassword
  | resetSent
  deriving DecidableEq, Repr

/-- The `errors` record built by `validate` (lines 38-72): a field is `some m`
exactly when `validate` assigned message `m` to that key. -/
structure ValidationErrors where
  loginIdentifier : Option String := none
  name : Option String := none
  email : Option String := none
  mobile : Option String := none
  password : Option String := none
  resetEmail : Option String := none
  deriving DecidableEq, Repr

/-- `Object.keys(errors).length` for the error record. -/
def errorCount (e : ValidationErrors) : Nat :=
  (if e.loginIdentifier.isSome then 1 else 0) + (if e.name.isSome then 1 else 0) +
    (if e.email.isSome then 1 else 0) + (if e.mobile.isSome then 1 else 0) +
    (if e.password.isSome then 1 else 0) + (if e.resetEmail.isSome then 1 else 0)

/-- JavaScript `String.prototype.trim`: strip leading and trailing
whitespace (modelled on the character list of the string). -/
def jsTrim (s : String) : List Char :=
  ((s.data.dropWhile Char.isWhitespace).reverse.dropWhile Char.isWhitespace).reverse

/-- The component state of `LoginModal` (lines 15-32). -/
structure ModalState where
  view : View
  loginIdentifier : String
  name : String
  email : String
  mobile : String
  resetEmail : String
  password : String
  formError : String
  validationErrors : ValidationErrors
  isSubmitting : Bool
  deriving DecidableEq, Repr

/-- Embedding of `validate` (lines 38-72): builds the error record from the
current field values and view.  (`validate` also stores the record and returns
its emptiness; callers below use `validateOk`.) -/
def validate (st : ModalState) : ValidationErrors :=
  let errors : ValidationErrors := {}
  let errors :=
    if st.view = View.login then
      let errors :=
        if jsTrim st.loginIdentifier = [] then
          { errors with loginIdentifier := some "Please enter your email or mobile number." }
        else if !regexTest emailReg st.loginIdentifier && !regexTest phoneReg st.loginIdentifier then
          { errors with loginIdentifier := some "Please enter a valid email or 10-digit mobile number." }
        else errors
      if st.password.length < 6 then
        { errors with password := some "Password must be at least 6 characters long." }
      else errors
    else errors
  let errors :=
    if st.view = View.signup then
      let errors :=
        if (jsTrim st.name).length < 3 then
          { errors with name := some "Full name must be at least 3 characters." }
        else errors
      let errors :=
        if !regexTest emailReg st.email then
          { errors with email := some "Please enter a valid email address." }
        else errors
      let errors :=
        if !regexTest phoneReg st.mobile then
          { errors with mobile := some "Please enter a valid 10-digit Indian mobile number." }
        else errors
      if st.password.length < 6 then
        { errors with password := some "Password must be at least 6 characters long." }
      else errors
    else errors
  if st.view = View.forgotPassword then
    if !regexTest emailReg st.resetEmail then
      { errors with resetEmail := some "Please enter a valid email address." }
    else errors
  else errors

/-- `Object.keys(errors).length === 0`, the boolean `validate` returns. -/
def validateOk (st : ModalState) : Bool := errorCount (validate st) == 0

/-- Embedding of `switchTo` (lines 120-125): clear the form error and the
validation-error record, then change the view.  Input fields are untouched. -/
def switchTo (target : View) (st : ModalState) : ModalState :=
  { st with formError := "", validationErrors := {}, view := target }

/-- User interactions with the modal that the claims quantify over: typing in
an input field (each `onChange` handler) and clicking a view-switch link. -/
inductive ModalEvent where
  | typeLoginIdentifier (s : String)
  | typeName (s : String)
  | typeEmail (s : String)
  | typeMobile (s : String)
  | typeResetEmail (s : String)
  | typeLoginPassword (s : String)
  | typeSignupPassword (s : String)
  | switchView (target : View)

/-- Effect of one interaction on the modal state.  Both password inputs
(lines 153-157 in `renderLogin`, 196-200 in `renderSignup`) call the same
`setPassword`. -/
def applyModalEvent (st : ModalState) : ModalEvent → ModalState
  | .typeLoginIdentifier s => { st with loginIdentifier := s }
  | .typeName s => { st with name := s }
  | .typeEmail s => { st with email := s }
  | .typeMobile s => { st with mobile := s }
  | .typeResetEmail s => { st with resetEmail := s }
  | .typeLoginPassword s => { st with password := s }
  | .typeSignupPassword s => { st with password := s }
  | .switchView t => switchTo t st

def runEvents (st : ModalState) (es : List ModalEvent) : ModalState :=
  es.foldl applyModalEvent st

/-- The `value` bound to the login view's password input (line 154). -/
def loginPasswordValue (st : ModalState) : String := st.password

/-- The `value` bound to the signup view's password input (line 197). -/
def signupPasswordValue (st : ModalState) : String := st.password

/-- Observable outcome of a submit handler run: the modal state afterwards,
the argument `onLoginSuccess` was invoked with (if at all), and whether the
session-store transition (hence a network call) was reached. -/
structure HandlerOutcome where
  modal : ModalState
  callbackUser : Option User
  networkCalled : Bool

/-- `result.error || t('...')`: JS `||` on the optional error value. -/
def errorOrFallback (e : Option JsValue) (fallback : String) : String :=
  match e with
  | some v => if toBool v then jsToString v else fallback
  | none => fallback

/-- Embedding of `handleLogin` (lines 74-88) together with the session-store
`login` it awaits.  `t` is the opaque translation function; `auth` is the
session-store state at submit time; `endpoint` the outcome of `loginUser`.
The `user` tested on line 84 is the value captured from the render in which
the form was submitted, i.e. `auth.user` from before the `login` call. -/
def handleLoginStep (t : String → String) (auth : AuthState) (st : ModalState)
    (endpoint : Except JsValue (String × User)) : Except String (AuthState × HandlerOutcome) :=
  let ctxUser := auth.user
  let st := { st with formError := "" }
  let errors := validate st
  let st := { st with validationErrors := errors }
  if errorCount errors == 0 then
    let st := { st with isSubmitting := true }
    match login auth endpoint with
    | .error ex => .error ex
    | .ok (auth', result) =>
      let st := { st with isSubmitting := false }
      if result.success && ctxUser.isSome then
        .ok (auth', { modal := st, callbackUser := ctxUser, networkCalled := true })
      else
        .ok (auth',
             { modal := { st with formError := errorOrFallback result.error (t "loginModal.invalidCredentials") },
               callbackUser := none, networkCalled := true })
  else
    .ok (auth, { modal := st, callbackUser := none, networkCalled := false })

/-- Embedding of `handleSignup` (lines 90-104), same shape over `signup` with
the generic fallback key `loginModal.error.generic`. -/
def handleSignupStep (t : String → String) (auth : AuthState) (st : ModalState)
    (endpoint : Except JsValue (String × User)) : Except String (AuthState × HandlerOutcome) :=
  let ctxUser := auth.user
  let st := { st with formError := "" }
  let errors := validate st
  let st := { st with validationErrors := errors }
  if errorCount errors == 0 then
    let st := { st with isSubmitting := true }
    match signup auth endpoint with
    | .error ex => .error ex
    | .ok (auth', result) =>
      let st := { st with isSubmitting := false }
      if result.success && ctxUser.isSome then
        .ok (auth', { modal := st, callbackUser := ctxUser, networkCalled := true })
      else
        .ok (auth',
             { modal := { st with formError := errorOrFallback result.error (t "loginModal.error.generic") },
               callbackUser := none, networkCalled := true })
  else
    .ok (auth, { modal := st, callbackUser := none, networkCalled := false })

/-! ## Concrete instances used to evaluate the embedded code -/

/-- An axios rejection carrying a server response (`error.response` with
`status`, `statusText` and a JSON `data` body). -/
def respError (status : Int) (stext : String) (data : JsValue) : JsValue :=
  .obj [("isAxiosError", .boolean true),
        ("response", .obj [("status", .num status), ("statusText", .str stext), ("data", data)])]

/-- An axios rejection where the request was sent but no response arrived
(`error.request` set, `error.response` absent). -/
def reqOnlyError : JsValue :=
  .obj [("isAxiosError", .boolean true), ("request", .obj [("readyState", .num 4)])]

/-- A 401 response whose body carries `message: "Invalid credentials"`. -/
def exInvalidCred : JsValue :=
  respError 401 "Unauthorized" (.obj [("message", .str "Invalid credentials")])

/-- A 500 response whose body carries a `message` field holding the empty
string. -/
def exEmptyMsg : JsValue :=
  respError 500 "Internal Server Error" (.obj [("message", .str "")])

def userAlice : User :=
  { id := "u1", name := "Alice", email := "alice@example.com", mobile := "9876543210", role := "user" }

/-- Session-store state of an anonymous visitor after bootstrap. -/
def authAnon : AuthState := { storedToken := none, user := none, isLoading := false }

/-- Login view filled with a valid identifier and password. -/
def modalLoginReady : ModalState :=
  { view := .login, loginIdentifier := "user@example.com", name := "", email := "", mobile := "",
    resetEmail := "", password := "secret123", formError := "", validationErrors := {},
    isSubmitting := false }

/-- Login view with the identifier `"not-an-email-or-phone"` and password `p`. -/
def modalLoginBadId (p : String) : ModalState :=
  { view := .login, loginIdentifier := "not-an-email-or-phone", name := "", email := "",
    mobile := "", resetEmail := "", password := p, formError := "", validationErrors := {},
    isSubmitting := false }

/-! ## Theorems -/

/-- C1: startup of the session store.  With no persisted token the final state
is anonymous (`user = none`, `isLoading = false`); with a token and a
successful fetch-current-user the final state is authenticated with the
fetched user; with a token and any fetch failure the token is removed from
storage and the final state is anonymous.  In every case the trace contains
exactly one `setIsLoading` effect, and it sets the flag to `false`. -/
theorem startup_session_bootstrap :
    (∀ r, startup none r = { storedToken := none, user := none, isLoading := false }) ∧
    (∀ tok u, startup (some tok) (Except.ok u) =
      { storedToken := some tok, user := some u, isLoading := false }) ∧
    (∀ tok e, startup (some tok) (Except.error e) =
      { storedToken := none, user := none, isLoading := false }) ∧
    (∀ tokOpt r, (loadUserTrace tokOpt r).filter isSetIsLoadingEffect =
      [Effect.setIsLoading false]) := by
  refine ⟨fun r => ?_, fun tok u => rfl, fun tok e => rfl, fun tokOpt r => ?_⟩
  · cases r <;> rfl
  · cases tokOpt <;> cases r <;> rfl

/-- C5: every cross-view transition of the auth modal clears the top-level
form error and the whole validation-error record, while leaving every input
field (and the password) unchanged. -/
theorem switchTo_clears_errors_keeps_fields :
    ∀ (st : ModalState) (target : View),
      (switchTo target st).formError = "" ∧
      (switchTo target st).validationErrors = {} ∧
      errorCount (switchTo target st).validationErrors = 0 ∧
      (switchTo target st).view = target ∧
      (switchTo target st).loginIdentifier = st.loginIdentifier ∧
      (switchTo target st).name = st.name ∧
      (switchTo target st).email = st.email ∧
      (switchTo target st).mobile = st.mobile ∧
      (switchTo target st).resetEmail = st.resetEmail ∧
      (switchTo target st).password = st.password :=
  fun _ _ => ⟨rfl, rfl, rfl, rfl, rfl, rfl, rfl, rfl, rfl, rfl⟩

/-- C9: `logout` removes the persisted token and clears the user in any state,
`isAuthenticated` becomes false, and its effect trace contains no network
call.  It is a total synchronous function, so it cannot fail. -/
theorem logout_clears_session :
    ∀ st : AuthState,
      logout st = { storedToken := none, user := none, isLoading := st.isLoading } ∧
      isAuthenticated (logout st) = false ∧
      countNetworkCalls logoutTrace = 0 :=
  fun _ => ⟨rfl, rfl, rfl⟩

/-- C10: the login and signup views share the single `password` state
variable: after any interaction sequence both views display the same
password value, typing into either view's password input updates both, and a
view switch never changes the password. -/
theorem password_shared_between_views :
    ∀ (st : ModalState) (es : List ModalEvent),
      loginPasswordValue (runEvents st es) = signupPasswordValue (runEvents st es) ∧
      (∀ target, (switchTo target st).password = st.password) ∧
      (∀ s, loginPasswordValue (applyModalEvent st (ModalEvent.typeLoginPassword s)) = s ∧
            signupPasswordValue (applyModalEvent st (ModalEvent.typeLoginPassword s)) = s ∧
            loginPasswordValue (applyModalEvent st (ModalEvent.typeSignupPassword s)) = s ∧
            signupPasswordValue (applyModalEvent st (ModalEvent.typeSignupPassword s)) = s) :=
  fun _ _ => ⟨rfl, fun _ => rfl, fun _ => ⟨rfl, rfl, rfl, rfl⟩⟩

/-- C7: `getApiErrorMessage` is documented never to throw and to always
return a string, but evaluating the embedded code shows it throws a
`TypeError` on input `null` and on input `undefined` (the final
`error.message` access), and returns the non-string `42` on the input
`{message: 42}`. -/
theorem getApiErrorMessage_not_total :
    getApiErrorMessage JsValue.null =
      Except.error "TypeError: Cannot read properties of null (reading message)" ∧
    getApiErrorMessage JsValue.undefined =
      Except.error "TypeError: Cannot read properties of undefined (reading message)" ∧
    getApiErrorMessage (JsValue.obj [("message", JsValue.num 42)]) =
      Except.ok (JsValue.num 42) :=
  ⟨rfl, rfl, rfl⟩

/-- C8: the request interceptor of src/frontent/services/api.ts returns every
config unchanged; in particular, with a token in storage and no preset
headers, the outgoing request carries no authorization header (contrary to
the comment in that file claiming the token is handled there). -/
theorem frontent_interceptor_adds_no_auth_header :
    ∀ (token : String) (config : RequestConfig),
      frontentRequestInterceptor (some token) config = config ∧
      getHeaderField
        (frontentRequestInterceptor (some token) { headers := [] }).headers "Authorization" = none :=
  fun _ _ => ⟨rfl, rfl⟩

/-- The interceptor of src/services/api.ts, by contrast, does attach the
bearer header whenever a token is stored (context for C8; property of
`requestInterceptor` alone). -/
theorem requestInterceptor_attaches_bearer :
    ∀ (token : String) (config : RequestConfig),
      getHeaderField (requestInterceptor (some token) config).headers "Authorization" =
        some ("Bearer " ++ token) := by
  intro token config
  show getHeaderField (setHeaderField config.headers "Authorization" ("Bearer " ++ token))
    "Authorization" = some ("Bearer " ++ token)
  generalize config.headers = hs
  induction hs with
  | nil => simp [setHeaderField, getHeaderField]
  | cons p rest ih =>
    obtain ⟨k', v'⟩ := p
    by_cases hk : k' = "Authorization"
    · subst hk; simp [setHeaderField, getHeaderField]
    · simp [setHeaderField, getHeaderField, hk, ih]

/-- C3 (evaluated at the failing input): an anonymous visitor submits a valid
login form and the login endpoint succeeds.  The session store ends
authenticated, yet the handler does not invoke `onLoginSuccess` and instead
sets the top-level form error to the generic fallback, because line 84 of
LoginModal.tsx tests the `user` value captured before the `login` call (still
`null`). -/
theorem handleLogin_success_skips_callback :
    ∀ t : String → String,
      handleLoginStep t authAnon modalLoginReady (Except.ok ("tok123", userAlice)) =
        Except.ok ({ storedToken := some "tok123", user := some userAlice, isLoading := false },
          { modal := { modalLoginReady with
                       formError := t "loginModal.invalidCredentials",
                       isSubmitting := false },
            callbackUser := none, networkCalled := true }) :=
  fun _ => rfl

/-- A string whose JS truthiness holds is non-empty. -/
theorem toBool_str_ne_empty (s : String) (h : toBool (JsValue.str s) = true) : s ≠ "" := by
  simpa [toBool, bne_iff_ne] using h

/-- The synthesized `Error: <status> - <statusText>` string is never empty. -/
theorem synth_ne_empty (a b : String) : ("Error: " ++ a ++ " - " ++ b) ≠ "" := by
  intro h
  have hl := congrArg String.length h
  have h7 : ("Error: " : String).length = 7 := rfl
  simp [String.length_append, h7] at hl

/-- Whenever the trailing `return error.message || '...'` produces a string,
that string is non-empty. -/
theorem lastReturn_ok_str_ne_empty (e : JsValue) (s : String)
    (h : lastReturn e = Except.ok (JsValue.str s)) : s ≠ "" := by
  unfold lastReturn at h
  cases hm : getProp e "message" with
  | error ex => rw [hm] at h; simp [Bind.bind, Except.bind] at h
  | ok msg =>
    rw [hm] at h
    simp only [Bind.bind, Except.bind] at h
    by_cases ht : toBool msg = true
    · rw [if_pos ht] at h
      simp only [pure, Except.pure, Except.ok.injEq] at h
      subst h
      exact toBool_str_ne_empty s ht
    · rw [if_neg ht] at h
      simp only [pure, Except.pure, Except.ok.injEq, JsValue.str.injEq] at h
      subst h
      decide

/-- Whenever `getApiErrorMessage` returns a string at all, it is non-empty. -/
theorem getApiErrorMessage_ok_str_ne_empty (e : JsValue) (s : String)
    (h : getApiErrorMessage e = Except.ok (JsValue.str s)) : s ≠ "" := by
  unfold getApiErrorMessage at h
  by_cases hax : isAxiosError e = true
  · rw [if_pos hax] at h
    cases hr : getProp e "response" with
    | error ex => rw [hr] at h; simp [Bind.bind, Except.bind] at h
    | ok response =>
      rw [hr] at h
      simp only [Bind.bind, Except.bind] at h
      by_cases hrt : toBool response = true
      · rw [if_pos hrt] at h
        cases hd : getProp response "data" with
        | error ex => rw [hd] at h; simp [Bind.bind, Except.bind] at h
        | ok data =>
          rw [hd] at h
          simp only [Bind.bind, Except.bind] at h
          by_cases hmt : toBool (optChainProp data "message") = true
          · rw [if_pos hmt] at h
            simp only [pure, Except.pure, Except.ok.injEq] at h
            rw [h] at hmt
            exact toBool_str_ne_empty s hmt
          · rw [if_neg hmt] at h
            cases hs1 : getProp response "status" with
            | error ex => rw [hs1] at h; simp [Bind.bind, Except.bind] at h
            | ok status =>
              rw [hs1] at h
              simp only [Bind.bind, Except.bind] at h
              cases hs2 : getProp response "statusText" with
              | error ex => rw [hs2] at h; simp [Bind.bind, Except.bind] at h
              | ok statusText =>
                rw [hs2] at h
                simp only [Bind.bind, Except.bind, pure, Except.pure, Except.ok.injEq,
                  JsValue.str.injEq] at h
                subst h
                exact synth_ne_empty (jsToString status) (jsToString statusText)
      · rw [if_neg hrt] at h
        cases hq : getProp e "request" with
        | error ex => rw [hq] at h; simp [Bind.bind, Except.bind] at h
        | ok request =>
          rw [hq] at h
          simp only [Bind.bind, Except.bind] at h
          by_cases hqt : toBool request = true
          · rw [if_pos hqt] at h
            simp only [pure, Except.pure, Except.ok.injEq, JsValue.str.injEq] at h
            subst h
            decide
          · rw [if_neg hqt] at h
            exact lastReturn_ok_str_ne_empty e s h
  · rw [if_neg hax] at h
    exact lastReturn_ok_str_ne_empty e s h

/-- C2: the login transition of the session store.  On endpoint success the
returned token is persisted and the returned user stored, and the result is
`success = true` with no error.  On endpoint failure the result is
`success = false` with the normalized, non-empty error message, and the state
is returned unchanged (no partial token/user writes). -/
theorem login_contract :
    (∀ st tok u, login st (Except.ok (tok, u)) =
      Except.ok ({ st with storedToken := some tok, user := some u },
                 { success := true, error := none })) ∧
    (∀ st e s, getApiErrorMessage e = Except.ok (JsValue.str s) →
      (login st (Except.error e) =
        Except.ok (st, { success := false, error := some (JsValue.str s) }) ∧ s ≠ "")) := by
  constructor
  · intro st tok u; rfl
  · intro st e s h
    refine ⟨?_, getApiErrorMessage_ok_str_ne_empty e s h⟩
    simp [login, h]

/-- Witness for C2: the failure contract evaluated at a concrete 401
rejection. -/
theorem login_contract_witness :
    getApiErrorMessage exInvalidCred = Except.ok (JsValue.str "Invalid credentials") ∧
    (login authAnon (Except.error exInvalidCred) =
      Except.ok (authAnon, { success := false, error := some (JsValue.str "Invalid credentials") }) ∧
      "Invalid credentials" ≠ "") :=
  ⟨rfl, login_contract.2 authAnon exInvalidCred "Invalid credentials" rfl⟩

/-- C6 (amended): `getApiErrorMessage` returns the backend `message` field when
the response carries one that is non-empty, else the synthesized
`Error: <status> - <statusText>` string; the fixed no-response string when
only a request is present; and otherwise the error's own non-empty `message`
or the generic fallback. -/
theorem getApiErrorMessage_cases :
    (∀ (status : Int) (stext msg : String), msg ≠ "" →
      getApiErrorMessage (respError status stext (JsValue.obj [("message", JsValue.str msg)])) =
        Except.ok (JsValue.str msg)) ∧
    (∀ (status : Int) (stext : String),
      getApiErrorMessage (respError status stext (JsValue.obj [])) =
        Except.ok (JsValue.str ("Error: " ++ toString status ++ " - " ++ stext))) ∧
    getApiErrorMessage reqOnlyError =
      Except.ok (JsValue.str "No response from server. Please check your network connection.") ∧
    (∀ m : String, m ≠ "" →
      getApiErrorMessage (JsValue.obj [("message", JsValue.str m)]) =
        Except.ok (JsValue.str m)) ∧
    getApiErrorMessage (JsValue.obj []) =
      Except.ok (JsValue.str "An unexpected error occurred.") := by
  refine ⟨?_, ?_, rfl, ?_, rfl⟩
  · intro status stext msg h
    simp [getApiErrorMessage, respError, isAxiosError, getProp, lookupField, optChainProp,
          toBool, Bind.bind, Except.bind, pure, Except.pure, bne_iff_ne, h]
  · intro status stext
    simp [getApiErrorMessage, respError, isAxiosError, getProp, lookupField, optChainProp,
          toBool, jsToString, Bind.bind, Except.bind, pure, Except.pure]
  · intro m h
    simp [getApiErrorMessage, isAxiosError, lastReturn, getProp, lookupField,
          toBool, Bind.bind, Except.bind, pure, Except.pure, bne_iff_ne, h]

/-- Witness for C6: the spec's own examples, a 401 response with message
`"Invalid credentials"` and a plain error with message `"boom"`. -/
theorem getApiErrorMessage_cases_witness :
    ("Invalid credentials" ≠ "" ∧
      getApiErrorMessage (respError 401 "Unauthorized"
          (JsValue.obj [("message", JsValue.str "Invalid credentials")])) =
        Except.ok (JsValue.str "Invalid credentials")) ∧
    ("boom" ≠ "" ∧
      getApiErrorMessage (JsValue.obj [("message", JsValue.str "boom")]) =
        Except.ok (JsValue.str "boom")) :=
  ⟨⟨by decide, getApiErrorMessage_cases.1 401 "Unauthorized" "Invalid credentials" (by decide)⟩,
   ⟨by decide, getApiErrorMessage_cases.2.2.2.1 "boom" (by decide)⟩⟩

/-- Counterexample for C6 as stated: a response whose body carries a `message`
field holding the empty string.  The field is present, yet the function
returns the synthesized status string, not the field's value. -/
theorem getApiErrorMessage_empty_message_ignored :
    getApiErrorMessage exEmptyMsg = Except.ok (JsValue.str "Error: 500 - Internal Server Error") ∧
    getApiErrorMessage exEmptyMsg ≠ Except.ok (JsValue.str "") := by
  refine ⟨rfl, ?_⟩
  intro h
  rw [show getApiErrorMessage exEmptyMsg =
    Except.ok (JsValue.str "Error: 500 - Internal Server Error") from rfl] at h
  injection h with h1
  injection h1 with h2
  exact absurd h2 (by decide)

/-- Counterexample for C4 as stated: with the identifier
`"not-an-email-or-phone"` and the empty password, validation produces two
errors (identifier and password), not exactly one. -/
theorem validate_badIdentifier_shortPassword_two_errors :
    errorCount (validate (modalLoginBadId "")) = 2 ∧
    validate (modalLoginBadId "") =
      { loginIdentifier := some "Please enter a valid email or 10-digit mobile number.",
        password := some "Password must be at least 6 characters long." } :=
  ⟨rfl, rfl⟩

/-- C4 (amended): with the identifier `"not-an-email-or-phone"` and any
password of length at least 6, validation produces exactly one error, on the
identifier field, and the submission is blocked: the handler skips the
session-store transition, so no network call is made and the store is
unchanged. -/
theorem validate_badIdentifier_blocks :
    ∀ p : String, 6 ≤ p.length →
      validate (modalLoginBadId p) =
        { loginIdentifier := some "Please enter a valid email or 10-digit mobile number." } ∧
      errorCount (validate (modalLoginBadId p)) = 1 ∧
      ∀ (t : String → String) (auth : AuthState) (endpoint : Except JsValue (String × User)),
        handleLoginStep t auth (modalLoginBadId p) endpoint =
          Except.ok (auth,
            { modal := { modalLoginBadId p with
                         validationErrors :=
                           { loginIdentifier :=
                               some "Please enter a valid email or 10-digit mobile number." } },
              callbackUser := none, networkCalled := false }) := by
  intro p hp
  have hnot : ¬ (p.length < 6) := Nat.not_lt.mpr hp
  have htrim : ¬ (jsTrim "not-an-email-or-phone" = ([] : List Char)) := by decide
  have hemail : regexTest emailReg "not-an-email-or-phone" = false := rfl
  have hphone : regexTest phoneReg "not-an-email-or-phone" = false := rfl
  have hv : validate (modalLoginBadId p) =
      { loginIdentifier := some "Please enter a valid email or 10-digit mobile number." } := by
    simp [validate, modalLoginBadId, htrim, hemail, hphone, hnot]
  refine ⟨hv, by rw [hv]; rfl, ?_⟩
  intro t auth endpoint
  have hupd : ({ modalLoginBadId p with formError := "" } : ModalState) = modalLoginBadId p := rfl
  simp only [handleLoginStep, hupd, hv, errorCount]
  simp [modalLoginBadId]

/-- Witness for C4 (amended), at the concrete password `"secret"`. -/
theorem validate_badIdentifier_blocks_witness :
    6 ≤ ("secret" : String).length ∧
    (validate (modalLoginBadId "secret") =
        { loginIdentifier := some "Please enter a valid email or 10-digit mobile number." } ∧
      errorCount (validate (modalLoginBadId "secret")) = 1 ∧
      ∀ (t : String → String) (auth : AuthState) (endpoint : Except JsValue (String × User)),
        handleLoginStep t auth (modalLoginBadId "secret") endpoint =
          Except.ok (auth,
            { modal := { modalLoginBadId "secret" with
                         validationErrors :=
                           { loginIdentifier :=
                               some "Please enter a valid email or 10-digit mobile number." } },
              callbackUser := none, networkCalled := false })) :=
  ⟨by decide, validate_badIdentifier_blocks "secret" (by decide)⟩

end Divine
